import Mathlib

/-!
Verification development for the Facebook uploader (`facebook_uploader.py`).

The program drives a browser through Selenium.  We shallowly embed the
programmed logic (cookie-store handling, selector resolution, login
waiting, flow control with try/except/finally) as pure Lean functions.
External collaborators (the browser driver, the filesystem, the clock)
are modelled as oracle values passed in explicitly: each fallible driver
call is an `Except String Unit` outcome, each page query an `Option`,
the current URL a `String`, and time an `Int`.  JSON numeric values are
modelled as integers, so the Python `int(...)` normalization is the
identity on the modelled value.
-/

/- ## String containment (the Python test `needle in haystack` on strings). -/

/-- Character-list version of `startswith`: the first list is an initial
segment of the second. -/
def charsStartWith : List Char → List Char → Bool
  | [], _ => true
  | _ :: _, [] => false
  | a :: as, b :: bs => a == b && charsStartWith as bs

/-- Character-list version of the Python substring test `n in h`. -/
def charsOccur (n : List Char) : List Char → Bool
  | [] => charsStartWith n []
  | c :: t => charsStartWith n (c :: t) || charsOccur n t

/-- The Python test `needle in hay` for strings: contiguous-substring test. -/
def strOccurs (needle hay : String) : Bool :=
  charsOccur needle.data hay.data

/-- The Python call `s.strip()`: drop whitespace from both ends. -/
def pyStrip (s : String) : String :=
  ⟨((s.data.dropWhile Char.isWhitespace).reverse.dropWhile Char.isWhitespace).reverse⟩

/-- Python truthiness of `s.strip()`: nonempty after stripping. -/
def strippedTruthy (s : String) : Bool :=
  !(pyStrip s).data.isEmpty

deriving instance DecidableEq for Except

/- ## Cookie data model (facebook_uploader.py lines 236-257, 270-286). -/

/-- A raw JSON cookie entry as stored on disk or returned by
`driver.get_cookies()`.  Every field the program reads is optional,
mirroring the key-membership tests on the Python dict. -/
structure RawCookie where
  name : Option String := none
  value : Option String := none
  domain : Option String := none
  path : Option String := none
  expiry : Option Int := none
  expires : Option Int := none
  secure : Option Bool := none
  httpOnly : Option Bool := none
deriving DecidableEq

/-- The `clean_cookie` dict built in `load_cookies` (lines 239-254):
mandatory `name`/`value`, defaulted `domain`/`path`, a single
normalized `expiry`, optional `secure`/`httpOnly`. -/
structure CleanCookie where
  name : String
  value : String
  domain : String
  path : String
  expiry : Option Int
  secure : Option Bool
  httpOnly : Option Bool
deriving DecidableEq

/-- The if-elif chain over the expiry and expires keys at
lines 246-249: the single normalized expiry value. -/
def normExpiry (c : RawCookie) : Option Int :=
  match c.expiry with
  | some e => some e
  | none =>
    match c.expires with
    | some e => some e
    | none => none

/-- Lines 238-254 of `load_cookies`: an entry with both `name` and
`value` becomes a clean cookie; any other entry is skipped. -/
def cleanCookie (c : RawCookie) : Option CleanCookie :=
  match c.name, c.value with
  | some n, some v =>
    some { name := n
           value := v
           domain := c.domain.getD ".facebook.com"
           path := c.path.getD "/"
           expiry := normExpiry c
           secure := c.secure
           httpOnly := c.httpOnly }
  | _, _ => none

/-- Parsed cookie-file JSON: either a dict (possibly missing the
`timestamp` or `cookies` keys) or a bare array (backward-compatible
form). -/
inductive CookieFileData where
  | dict (timestamp : Option Int) (cookies : Option (List RawCookie))
  | arr (cookies : List RawCookie)
deriving DecidableEq

/-- Dict form: read the cookies key, defaulting to the empty list
(line 222); a bare array is itself the cookie list (line 224). -/
def extractCookies : CookieFileData → List RawCookie
  | .dict _ cs => cs.getD []
  | .arr cs => cs

/-- Dict form: read the timestamp key, defaulting to 0 (line 626);
a bare array has no timestamp (line 629). -/
def fileTimestamp : CookieFileData → Int
  | .dict t _ => t.getD 0
  | .arr _ => 0

/-- Failure modes of `load_cookies` before any injection happens:
missing file (line 213), unparseable JSON (the broad `except` at line
266), and a parsed file holding zero cookies (line 226). -/
inductive LoadErr where
  | notFound
  | parseFailed (msg : String)
  | empty
deriving DecidableEq

/-- The pure file-processing part of `load_cookies` (lines 211-254).
The argument is the state of the cookie file: `none` when the file does
not exist, `some (.error e)` when it exists but JSON parsing raises,
`some (.ok d)` when it parses to `d`.  On success the result is the
ordered sequence of clean cookies that the function goes on to inject
via `driver.add_cookie`. -/
def load_cookies : Option (Except String CookieFileData) → Except LoadErr (List CleanCookie)
  | none => .error .notFound
  | some (.error e) => .error (.parseFailed e)
  | some (.ok d) =>
    let cookies := extractCookies d
    if cookies.isEmpty then .error .empty
    else .ok (cookies.filterMap cleanCookie)

/-- Function save_cookies (lines 270-281): serialize
`{timestamp: now, cookies}` as the canonical on-disk form. -/
def save_cookies (now : Int) (cookies : List RawCookie) : CookieFileData :=
  .dict (some now) (some cookies)

/- ## Cookie status inspection (`check_cookies_status`, lines 614-671). -/

/-- The validity test of the loop at lines 636-648: compare `expiry`
when present, else `expires` when present, else count the cookie as
valid. -/
def cookieValid (now : Int) (c : RawCookie) : Bool :=
  match c.expiry with
  | some e => decide (now < e)
  | none =>
    match c.expires with
    | some e => decide (now < e)
    | none => true

/-- The three result shapes `check_cookies_status` can return: the
missing-file record (line 618), the full report (lines 661-667), and
the error record produced instead of raising (line 671). -/
inductive CookiesStatus where
  | notExists
  | report (total valid expired : Nat) (timestamp : Int)
  | errorReport (err : String)
deriving DecidableEq

/-- Function check_cookies_status (lines 614-671) over the same cookie-file
oracle as `load_cookies`, with `now` standing for `time.time()`. -/
def check_cookies_status (file : Option (Except String CookieFileData)) (now : Int) : CookiesStatus :=
  match file with
  | none => .notExists
  | some (.error e) => .errorReport e
  | some (.ok d) =>
    let cookies := extractCookies d
    let valid := cookies.filter (fun c => cookieValid now c)
    let expired := cookies.filter (fun c => !cookieValid now c)
    .report cookies.length valid.length expired.length (fileTimestamp d)

/- ## Login-page detection and the manual-login wait (lines 299-323). -/

/-- Function check_login_required (lines 299-302): true when the
current URL contains login or checkpoint as a substring. -/
def check_login_required (currentUrl : String) : Bool :=
  strOccurs "login" currentUrl || strOccurs "checkpoint" currentUrl

/-- The success condition inside `wait_for_login` (lines 315-316): no
longer on a login/checkpoint URL, and the URL names the target site. -/
def loginComplete (url : String) : Bool :=
  !(strOccurs "login" url || strOccurs "checkpoint" url) && strOccurs "facebook.com" url

/-- Outcome of `wait_for_login`: either the success return at line 319
(recording the poll index at which it fired and the fact that
`save_cookies` was called on that path, line 318), or the
`TimeoutException` raised at line 323. -/
inductive LoginWaitResult where
  | loggedIn (pollIndex : Nat) (cookiesSaved : Bool)
  | timedOut (msg : String)
deriving DecidableEq

/-- The polling loop of `wait_for_login` (lines 309-323): `urlAt i` is
the URL observed at the i-th poll, the fuel is the number of polls the
time bound allows (the loop sleeps a fixed 2 seconds between polls, so
the fuel is timeout/2). -/
def wait_for_loginAux (urlAt : Nat → String) : Nat → Nat → LoginWaitResult
  | i, fuel + 1 =>
    if loginComplete (urlAt i) then .loggedIn i true
    else wait_for_loginAux urlAt (i + 1) fuel
  | _, 0 => .timedOut "Timeout waiting for login"

/-- Function wait_for_login (lines 304-323) starting at the first poll. -/
def wait_for_login (urlAt : Nat → String) (maxPolls : Nat) : LoginWaitResult :=
  wait_for_loginAux urlAt 0 maxPolls

/- ## Selector resolution (`_find_element_by_selectors`, lines 187-209). -/

/-- Element references are abstract handles. -/
def Elem := Nat
deriving DecidableEq

/-- The selector loop of lines 187-209.  Here `wait visible s` is
the outcome of the bounded `WebDriverWait` on selector `s` with the
given visibility requirement (`element_to_be_clickable` when true,
`presence_of_element_located` when false): `some e` when it resolves an
element within the per-selector timeout, `none` when it raises
`TimeoutException`.  A timeout moves on to the next selector; an empty
list yields `none` (the Python `return None` fall-through). -/
def find_element_by_selectors (wait : Bool → String → Option Elem) (visible : Bool) :
    List String → Option Elem
  | [] => none
  | s :: rest =>
    match wait visible s with
    | some e => some e
    | none => find_element_by_selectors wait visible rest

/-- The selectors the loop actually attempts (in order) before
returning: every selector up to and including the first that matches,
or the whole list when none does. -/
def find_element_attempts (wait : Bool → String → Option Elem) (visible : Bool) :
    List String → List String
  | [] => []
  | s :: rest =>
    match wait visible s with
    | some _ => [s]
    | none => s :: find_element_attempts wait visible rest

/- ## The selector tables (lines 64-106), with apostrophes escaped. -/

/-- The selectors table entry status_input (lines 65-71). -/
def selectors_status_input : List String :=
  ["div[data-testid=\x27status-attachment-mentions-input\x27]",
   "div[role=\x27textbox\x27][data-testid=\x27status-attachment-mentions-input\x27]",
   "div[contenteditable=\x27true\x27][data-testid=\x27status-attachment-mentions-input\x27]",
   "div[aria-label*=\x27What\\\x27s on your mind\x27]",
   "div[aria-label*=\x27Apa yang Anda pikirkan\x27]"]

/-- The selectors table entry photo_video_button (lines 72-78). -/
def selectors_photo_video_button : List String :=
  ["div[aria-label=\x27Photo/video\x27]",
   "div[aria-label=\x27Foto/video\x27]",
   "div[data-testid=\x27photo-video-button\x27]",
   "input[accept*=\x27image\x27]",
   "input[accept*=\x27video\x27]"]

/-- The selectors table entry file_input (lines 79-83). -/
def selectors_file_input : List String :=
  ["input[type=\x27file\x27]",
   "input[accept*=\x27video\x27]",
   "input[accept*=\x27image\x27]"]

/-- The selectors table entry post_button (lines 84-89). -/
def selectors_post_button : List String :=
  ["div[aria-label=\x27Post\x27]",
   "div[aria-label=\x27Posting\x27]",
   "div[data-testid=\x27react-composer-post-button\x27]",
   "div[role=\x27button\x27][tabindex=\x270\x27]"]

/-- The selectors table entry reels_upload_button (lines 90-94). -/
def selectors_reels_upload_button : List String :=
  ["div[aria-label=\x27Select video\x27]",
   "div[aria-label=\x27Pilih video\x27]",
   "input[accept*=\x27video\x27]"]

/-- The selectors table entry reels_next_button (lines 95-99). -/
def selectors_reels_next_button : List String :=
  ["div[aria-label=\x27Next\x27]",
   "div[aria-label=\x27Berikutnya\x27]",
   "div[role=\x27button\x27]"]

/-- The selectors table entry reels_share_button (lines 100-105). -/
def selectors_reels_share_button : List String :=
  ["div[aria-label=\x27Share to Feed\x27]",
   "div[aria-label=\x27Bagikan ke Feed\x27]",
   "div[aria-label=\x27Share\x27]",
   "div[aria-label=\x27Bagikan\x27]"]

/- ## The upload flows (lines 325-459 and 461-597). -/

/-- Oracle environment for one flow invocation.  Each field fixes the
outcome of one external interaction, in the order the flow performs
them.  `Except String Unit` outcomes model driver calls that either
return or raise (the string is the message of the exception); `Option Elem`
fields model the page queries of the fallback scans, which the flow
treats as plain lookups. -/
structure FlowEnv where
  /-- The browser start call at line 174; on error the driver field stays unset. -/
  launch : Except String Unit
  /-- the anti-detection `execute_script` at line 177, after `self.driver` is set. -/
  antiDetect : Except String Unit
  /-- state of the cookie file read by `load_cookies`. -/
  cookieFile : Option (Except String CookieFileData)
  /-- The navigation to the home URL inside load_cookies (line 231). -/
  loadNav : Except String Unit
  /-- which clean cookies `driver.add_cookie` accepts (line 256); a
  rejected cookie is logged and skipped (lines 259-261). -/
  addCookieOk : CleanCookie → Bool
  /-- the navigation of the flow to its target page (line 345 / 481). -/
  navigate : Except String Unit
  /-- the current URL at the first check_login_required (line 349 / 485). -/
  url1 : String
  /-- the page refresh (line 352 / 488). -/
  refresh : Except String Unit
  /-- the current URL at the second check_login_required (line 355 / 491). -/
  url2 : String
  /-- the current URL at each poll of wait_for_login. -/
  urlAt : Nat → String
  /-- number of polls the manual-login time bound allows. -/
  loginPolls : Nat
  /-- the re-navigation after a successful manual login (line 357 / 493). -/
  navigateAfterLogin : Except String Unit
  /-- outcome of each bounded `WebDriverWait` inside
  `_find_element_by_selectors`, by visibility flag and selector. -/
  wait : Bool → String → Option Elem
  /-- the click on the status input (line 368). -/
  clickStatusInput : Except String Unit
  /-- the filesystem existence test (line 372). -/
  pathExists : String → Bool
  /-- the click on the photo/video control (line 379). -/
  clickPhotoBtn : Except String Unit
  /-- sending the absolute media path to the file input (line 387). -/
  sendMediaKeys : Except String Unit
  /-- the contenteditable typing block (lines 398-409); its inner bare
  `except: continue` swallows per-element faults, but `is_displayed`
  is evaluated outside that inner try and can still raise. -/
  addText : Except String Unit
  /-- result of the fallback scan for a post button by literal text
  (lines 417-422). -/
  fallbackPostBtn : Option Elem
  /-- the forced script-level click on the post button (line 428). -/
  execClickPost : Except String Unit
  /-- sending the absolute video path to the upload element (line 516). -/
  sendVideoKeys : Except String Unit
  /-- the description typing block (lines 528-539). -/
  addDescription : Except String Unit
  /-- result of the fallback scan over file-input elements
  whose accept attribute mentions video (lines 504-509). -/
  fallbackVideoInput : Option Elem
  /-- the click on the next button (line 544). -/
  clickNext : Except String Unit
  /-- result of the fallback scan for a share button by literal text
  (lines 554-560). -/
  fallbackShareBtn : Option Elem
  /-- the forced script-level click on the share button (line 566). -/
  execClickShare : Except String Unit
  /-- the epoch time when the error screenshot is named. -/
  now : Int

/-- Whether an external call returned normally. -/
def exIsOk : Except String Unit → Bool
  | .ok _ => true
  | .error _ => false

/-- The whole of `load_cookies` (lines 211-268) as the flow sees it:
the boolean `cookies_added > 0`, with every internal failure caught
and turned into `False`. -/
def loadCookiesRun (env : FlowEnv) : Bool :=
  match load_cookies env.cookieFile with
  | .error _ => false
  | .ok cleaned =>
    match env.loadNav with
    | .error _ => false
    | .ok _ => decide (0 < (cleaned.filter env.addCookieOk).length)

/-- The login gate shared verbatim by both flows (lines 349-358 and
485-494): refresh once if cookies were loaded, then fall back to the
manual-login wait, whose `TimeoutException` propagates to the flow
boundary. -/
def loginGate (env : FlowEnv) (cookiesLoaded : Bool) : Except String Unit := do
  if check_login_required env.url1 then
    if cookiesLoaded then env.refresh else pure ()
    if check_login_required env.url2 then
      match wait_for_login env.urlAt env.loginPolls with
      | .timedOut msg => throw msg
      | .loggedIn _ _ => pure ()
      env.navigateAfterLogin
    else pure ()
  else pure ()

/-- The `try` body of `upload_status` (lines 336-440), up to the
success return. -/
def uploadStatusBody (env : FlowEnv) (statusText mediaPath : String) : Except String Unit := do
  env.launch
  env.antiDetect
  let cookiesLoaded := loadCookiesRun env
  env.navigate
  loginGate env cookiesLoaded
  match find_element_by_selectors env.wait true selectors_status_input with
  | none => throw "Status input not found"
  | some _ => pure ()
  env.clickStatusInput
  if mediaPath ≠ "" && env.pathExists mediaPath then
    (match find_element_by_selectors env.wait true selectors_photo_video_button with
     | some _ => env.clickPhotoBtn
     | none => pure ())
    match find_element_by_selectors env.wait false selectors_file_input with
    | some _ => env.sendMediaKeys
    | none => pure ()
  else pure ()
  if strippedTruthy statusText then env.addText else pure ()
  let pb :=
    match find_element_by_selectors env.wait true selectors_post_button with
    | some e => some e
    | none => env.fallbackPostBtn
  match pb with
  | none => throw "Post button not found"
  | some _ => env.execClickPost

/-- The `try` body of `upload_reels` (lines 472-578), up to the
success return. -/
def uploadReelsBody (env : FlowEnv) (description : String) : Except String Unit := do
  env.launch
  env.antiDetect
  let cookiesLoaded := loadCookiesRun env
  env.navigate
  loginGate env cookiesLoaded
  let up :=
    match find_element_by_selectors env.wait false selectors_reels_upload_button with
    | some e => some e
    | none => env.fallbackVideoInput
  match up with
  | none => throw "Video upload element not found"
  | some _ => pure ()
  env.sendVideoKeys
  if strippedTruthy description then env.addDescription else pure ()
  (match find_element_by_selectors env.wait true selectors_reels_next_button with
   | some _ => env.clickNext
   | none => pure ())
  let sb :=
    match find_element_by_selectors env.wait true selectors_reels_share_button with
    | some e => some e
    | none => env.fallbackShareBtn
  match sb with
  | none => throw "Share button not found"
  | some _ => env.execClickShare

/-- The result dict of `upload_status` (lines 435-454). -/
structure UploadResult where
  success : Bool
  message : String
  status_text : String
  media_path : String
deriving DecidableEq

/-- The result dict of `upload_reels` (lines 573-592). -/
structure ReelsResult where
  success : Bool
  message : String
  video_path : String
  description : String
deriving DecidableEq

/-- Observable resource events of one flow invocation. -/
structure FlowTrace where
  /-- the driver field was assigned (the browser process started). -/
  launched : Bool
  /-- the `finally` block invoked `self.driver.quit()` (lines 456-459 / 594-597). -/
  quitCalled : Bool
  /-- a screenshot file was actually written. -/
  screenshotSaved : Bool
  /-- its name when it was. -/
  screenshotName : Option String
deriving DecidableEq

/-- Function take_screenshot (lines 599-612): the screenshot call
succeeds when a driver exists; when `self.driver` is `None` the call
raises, the broad `except` swallows it, and no file is produced. -/
def take_screenshot (launched : Bool) (filename : String) : Option String :=
  if launched then some filename else none

/-- Function upload_status (lines 325-459): run the body, catch any exception
at the boundary into a failure result after attempting a timestamped
diagnostic screenshot, and in all cases run the `finally` block, which
quits the driver exactly when one was launched. -/
def upload_status (env : FlowEnv) (statusText mediaPath : String) :
    UploadResult × FlowTrace :=
  let launched := exIsOk env.launch
  match uploadStatusBody env statusText mediaPath with
  | .ok _ =>
    ({ success := true, message := "Status posted successfully",
       status_text := statusText, media_path := mediaPath },
     { launched := launched, quitCalled := launched,
       screenshotSaved := false, screenshotName := none })
  | .error e =>
    let shot := take_screenshot launched
      ("facebook_status_error_" ++ toString env.now ++ ".png")
    ({ success := false, message := "Facebook status upload failed: " ++ e,
       status_text := statusText, media_path := mediaPath },
     { launched := launched, quitCalled := launched,
       screenshotSaved := shot.isSome, screenshotName := shot })

/-- Function upload_reels (lines 461-597), same boundary discipline as
`upload_status`. -/
def upload_reels (env : FlowEnv) (videoPath description : String) :
    ReelsResult × FlowTrace :=
  let launched := exIsOk env.launch
  match uploadReelsBody env description with
  | .ok _ =>
    ({ success := true, message := "Reels uploaded successfully",
       video_path := videoPath, description := description },
     { launched := launched, quitCalled := launched,
       screenshotSaved := false, screenshotName := none })
  | .error e =>
    let shot := take_screenshot launched
      ("facebook_reels_error_" ++ toString env.now ++ ".png")
    ({ success := false, message := "Facebook Reels upload failed: " ++ e,
       video_path := videoPath, description := description },
     { launched := launched, quitCalled := launched,
       screenshotSaved := shot.isSome, screenshotName := shot })

/- ## CLI validation for the status flow (`main`, lines 700-709). -/

/-- Python truthiness of an optional string CLI argument. -/
def pyTruthy : Option String → Bool
  | none => false
  | some s => !s.data.isEmpty

/-- What the `--type status` branch of `main` decides before anything
else runs. -/
inductive StatusAction where
  | reject (msg : String)
  | run (text media : String)
deriving DecidableEq

/-- Lines 700-709 of `main`: the two validation checks guarding the
status flow.  Only the `run` outcome goes on to call `upload_status`. -/
def mainStatusValidate (statusArg mediaArg : Option String) (pathExists : String → Bool) :
    StatusAction :=
  if !pyTruthy statusArg && !pyTruthy mediaArg then
    .reject "Status text or media required for status upload"
  else if pyTruthy mediaArg && !pathExists (mediaArg.getD "") then
    .reject "Media file not found"
  else .run (statusArg.getD "") (mediaArg.getD "")

/-- The status branch end to end: `None` when validation exits before
the flow (hence before any browser launch), otherwise the outcome of
the flow. -/
def mainStatusRun (statusArg mediaArg : Option String) (pathExists : String → Bool)
    (env : FlowEnv) : Option (UploadResult × FlowTrace) :=
  match mainStatusValidate statusArg mediaArg pathExists with
  | .reject _ => none
  | .run t m => some (upload_status env t m)

/- ## Spec-side definitions used to compare with the code (claims C2/C3). -/

/-- Spec wording: an entry that has both `name` and `value`. -/
def fullEntry (c : RawCookie) : Bool :=
  c.name.isSome && c.value.isSome

/-- Spec wording: the normalized form of a full entry — `name`/`value`
kept, `domain`/`path` defaulted, `expiry`/`expires` collapsed into one
integer `expiry`.  Stated from the wording of the spec, to be
compared with the `cleanCookie` of the code. -/
def cleanFull (c : RawCookie) : CleanCookie :=
  { name := c.name.getD ""
    value := c.value.getD ""
    domain := c.domain.getD ".facebook.com"
    path := c.path.getD "/"
    expiry := normExpiry c
    secure := c.secure
    httpOnly := c.httpOnly }

/- ## Concrete fixtures used by witnesses and counterexamples. -/

/-- A baseline oracle environment in which every external call
succeeds, there is no cookie file, and the session is already
authenticated. -/
def envBase : FlowEnv :=
  { launch := .ok ()
    antiDetect := .ok ()
    cookieFile := none
    loadNav := .ok ()
    addCookieOk := fun _ => true
    navigate := .ok ()
    url1 := "https://www.facebook.com/home"
    refresh := .ok ()
    url2 := "https://www.facebook.com/home"
    urlAt := fun _ => "https://www.facebook.com/home"
    loginPolls := 5
    navigateAfterLogin := .ok ()
    wait := fun _ _ => some (0 : Nat)
    clickStatusInput := .ok ()
    pathExists := fun _ => false
    clickPhotoBtn := .ok ()
    sendMediaKeys := .ok ()
    addText := .ok ()
    fallbackPostBtn := none
    execClickPost := .ok ()
    sendVideoKeys := .ok ()
    addDescription := .ok ()
    fallbackVideoInput := none
    clickNext := .ok ()
    fallbackShareBtn := none
    execClickShare := .ok ()
    now := 0 }

/-- Environment where the browser process fails to start ("browser
failed to start"), used to examine the screenshot behaviour. -/
def envLaunchFailA : FlowEnv := { envBase with launch := .error "browser failed to start" }

/-- Environment where the browser process fails to start ("chrome
crashed"), used to examine the propagation behaviour. -/
def envLaunchFailB : FlowEnv := { envBase with launch := .error "chrome crashed" }

/-- Environment where the browser runs fine but no selector ever
resolves an element. -/
def envNoElement : FlowEnv := { envBase with wait := fun _ _ => none }

/-- A page oracle for the resolver: only selector "B" matches. -/
def waitOnlyB : Bool → String → Option Elem :=
  fun _ s => if s == "B" then some (7 : Nat) else none

/-- URL history where the user finishes logging in at the fourth poll. -/
def urlsLoginAt3 : Nat → String :=
  fun i => if i < 3 then "https://www.facebook.com/login" else "https://www.facebook.com/home"

/-- Two raw cookies: a full entry carrying only `expires`, and an entry
lacking `value`. -/
def cookiesMixed : List RawCookie :=
  [{ name := some "c_user", value := some "1234", expires := some 99 },
   { name := some "orphan" }]

/- ## Infrastructure lemmas. -/

theorem charsStartWith_iff (n : List Char) : ∀ h : List Char,
    charsStartWith n h = true ↔ ∃ q, h = n ++ q := by
  induction n with
  | nil => intro h; simp [charsStartWith]
  | cons a as ih =>
    intro h
    cases h with
    | nil =>
      simp [charsStartWith]
    | cons b bs =>
      simp only [charsStartWith, Bool.and_eq_true, beq_iff_eq, ih, List.cons_append]
      constructor
      · rintro ⟨rfl, q, rfl⟩; exact ⟨q, rfl⟩
      · rintro ⟨q, hq⟩
        injection hq with h1 h2
        exact ⟨h1.symm, q, h2⟩

theorem charsOccur_iff (n : List Char) : ∀ h : List Char,
    charsOccur n h = true ↔ ∃ p q, h = p ++ n ++ q := by
  intro h
  induction h with
  | nil =>
    simp only [charsOccur, charsStartWith_iff]
    constructor
    · rintro ⟨q, hq⟩; exact ⟨[], q, by simpa using hq⟩
    · rintro ⟨p, q, hpq⟩
      rcases List.append_eq_nil.mp ((List.append_assoc p n q ▸ hpq).symm) with ⟨hp, hnq⟩
      rcases List.append_eq_nil.mp hnq with ⟨hn, hq⟩
      exact ⟨[], by simp [hn, hq]⟩
  | cons c t ih =>
    simp only [charsOccur, Bool.or_eq_true, charsStartWith_iff, ih]
    constructor
    · rintro (⟨q, hq⟩ | ⟨p, q, hq⟩)
      · exact ⟨[], q, by simpa using hq⟩
      · exact ⟨c :: p, q, by simp [hq]⟩
    · rintro ⟨p, q, hpq⟩
      cases p with
      | nil => exact Or.inl ⟨q, by simpa using hpq⟩
      | cons x xs =>
        rw [List.cons_append, List.cons_append] at hpq
        injection hpq with h1 h2
        exact Or.inr ⟨xs, q, h2⟩

theorem strOccurs_iff (needle hay : String) :
    strOccurs needle hay = true ↔ ∃ p q, hay.data = p ++ needle.data ++ q := by
  exact charsOccur_iff needle.data hay.data

/-- C10: `check_login_required` returns true exactly when "login" or
"checkpoint" occurs anywhere in the current URL as a contiguous
substring; the domain plays no part, so a URL that merely mentions
either word (e.g. in a query parameter or a content slug on a foreign
domain) reports that login is required. -/
theorem check_login_required_spec :
    (∀ url : String, check_login_required url = true ↔
      ((∃ p q, url.data = p ++ "login".data ++ q) ∨
       (∃ p q, url.data = p ++ "checkpoint".data ++ q))) ∧
    check_login_required "https://example.com/search?q=login-tips" = true ∧
    check_login_required "https://news.example.org/checkpoint-history" = true ∧
    check_login_required "https://www.facebook.com/reel/create" = false := by
  refine ⟨fun url => ?_, by decide, by decide, by decide⟩
  simp [check_login_required, Bool.or_eq_true, strOccurs_iff]

/-- C1: the resolver tries the ordered selector list one by one; the
first selector whose bounded wait resolves an element wins, later
selectors are never attempted, a per-selector timeout just moves on to
the next selector, and `none` (NotFound) comes back exactly when every
selector in the list timed out. -/
theorem find_element_by_selectors_spec :
    (∀ (wait : Bool → String → Option Elem) (visible : Bool)
       (tried : List String) (s : String) (rest : List String) (e : Elem),
       (∀ t ∈ tried, wait visible t = none) → wait visible s = some e →
       find_element_by_selectors wait visible (tried ++ s :: rest) = some e ∧
       find_element_attempts wait visible (tried ++ s :: rest) = tried ++ [s]) ∧
    (∀ (wait : Bool → String → Option Elem) (visible : Bool) (s : String) (rest : List String),
       wait visible s = none →
       find_element_by_selectors wait visible (s :: rest) =
         find_element_by_selectors wait visible rest) ∧
    (∀ (wait : Bool → String → Option Elem) (visible : Bool) (sels : List String),
       find_element_by_selectors wait visible sels = none ↔
         ∀ s ∈ sels, wait visible s = none) := by
  refine ⟨?_, ?_, ?_⟩
  · intro wait visible tried
    induction tried with
    | nil =>
      intro s rest e _ hs
      simp [find_element_by_selectors, find_element_attempts, hs]
    | cons t ts ih =>
      intro s rest e htried hs
      have ht : wait visible t = none := htried t (by simp)
      have hts : ∀ u ∈ ts, wait visible u = none := fun u hu => htried u (by simp [hu])
      have := ih s rest e hts hs
      simp [find_element_by_selectors, find_element_attempts, ht, this.1, this.2]
  · intro wait visible s rest hs
    simp [find_element_by_selectors, hs]
  · intro wait visible sels
    induction sels with
    | nil => simp [find_element_by_selectors]
    | cons s rest ih =>
      cases hs : wait visible s with
      | none => simp [find_element_by_selectors, hs, ih]
      | some e => simp [find_element_by_selectors, hs]

/-- Witness for C1 at the scenario of the spec: selector list
`[A, B, C]` where only `B` matches — resolution returns the element
matched by `B` and the loop never attempts `C`. -/
theorem find_element_by_selectors_spec_witness :
    find_element_by_selectors waitOnlyB true ["A", "B", "C"] = some (7 : Nat) ∧
    find_element_attempts waitOnlyB true ["A", "B", "C"] = ["A", "B"] := by
  have h := find_element_by_selectors_spec.1 waitOnlyB true ["A"] "B" ["C"] (7 : Nat)
    (by decide) (by decide)
  exact ⟨h.1, h.2⟩

theorem wflAux_loggedIn (urlAt : Nat → String) :
    ∀ fuel i k b, wait_for_loginAux urlAt i fuel = .loggedIn k b →
      b = true ∧ i ≤ k ∧ k < i + fuel ∧ loginComplete (urlAt k) = true ∧
      ∀ j, i ≤ j → j < k → loginComplete (urlAt j) = false := by
  intro fuel
  induction fuel with
  | zero => intro i k b h; simp [wait_for_loginAux] at h
  | succ m ih =>
    intro i k b h
    cases hc : loginComplete (urlAt i) with
    | true =>
      simp [wait_for_loginAux, hc] at h
      obtain ⟨rfl, rfl⟩ := h
      exact ⟨rfl, Nat.le_refl i, by omega, hc, fun j h1 h2 => by omega⟩
    | false =>
      simp only [wait_for_loginAux, hc] at h
      rw [if_neg (by simp)] at h
      obtain ⟨hb, h1, h2, h3, h4⟩ := ih (i + 1) k b h
      refine ⟨hb, by omega, by omega, h3, fun j hj1 hj2 => ?_⟩
      rcases Nat.eq_or_lt_of_le hj1 with rfl | hlt
      · exact hc
      · exact h4 j hlt hj2

theorem wflAux_timedOut (urlAt : Nat → String) :
    ∀ fuel i, wait_for_loginAux urlAt i fuel = .timedOut "Timeout waiting for login" ↔
      ∀ j, i ≤ j → j < i + fuel → loginComplete (urlAt j) = false := by
  intro fuel
  induction fuel with
  | zero =>
    intro i
    simp only [wait_for_loginAux]
    exact ⟨fun _ j h1 h2 => by omega, fun _ => trivial⟩
  | succ m ih =>
    intro i
    cases hc : loginComplete (urlAt i) with
    | true =>
      simp only [wait_for_loginAux, hc, if_true]
      constructor
      · intro h; cases h
      · intro hall
        have := hall i (Nat.le_refl i) (by omega)
        rw [hc] at this
        cases this
    | false =>
      simp only [wait_for_loginAux, hc]
      rw [if_neg (by simp)]
      rw [ih (i + 1)]
      constructor
      · intro h j hj1 hj2
        rcases Nat.eq_or_lt_of_le hj1 with rfl | hlt
        · exact hc
        · exact h j hlt (by omega)
      · intro hall j hj1 hj2
        exact hall j (by omega) (by omega)

/-- C7: `wait_for_login` polls the URL stream one observation per fixed
2-second interval; it returns success — the path on which
`save_cookies` is called — exactly when some poll within the bound sees
a URL that no longer indicates login/checkpoint and does name
facebook.com, returning at the first such poll; when no poll within the
bound satisfies the condition it fails with the login timeout. -/
theorem wait_for_login_spec :
    (∀ (urlAt : Nat → String) (maxPolls i : Nat) (b : Bool),
       wait_for_login urlAt maxPolls = .loggedIn i b →
       b = true ∧ i < maxPolls ∧ loginComplete (urlAt i) = true ∧
       ∀ j, j < i → loginComplete (urlAt j) = false) ∧
    (∀ (urlAt : Nat → String) (maxPolls : Nat),
       wait_for_login urlAt maxPolls = .timedOut "Timeout waiting for login" ↔
       ∀ i, i < maxPolls → loginComplete (urlAt i) = false) ∧
    (∀ url, loginComplete url = (!check_login_required url && strOccurs "facebook.com" url)) := by
  refine ⟨?_, ?_, fun url => rfl⟩
  · intro urlAt maxPolls i b h
    obtain ⟨hb, _, h2, h3, h4⟩ := wflAux_loggedIn urlAt maxPolls 0 i b h
    exact ⟨hb, by omega, h3, fun j hj => h4 j (Nat.zero_le j) hj⟩
  · intro urlAt maxPolls
    rw [wait_for_login, wflAux_timedOut urlAt maxPolls 0]
    constructor
    · intro h i hi
      exact h i (Nat.zero_le i) (by omega)
    · intro hall j _ hj
      exact hall j (by omega)

/-- Witness for C7: the user logs in at the fourth poll (index 3) of a
10-poll bound. -/
theorem wait_for_login_spec_witness :
    (3 : Nat) < 10 ∧ loginComplete (urlsLoginAt3 3) = true ∧
    ∀ j, j < 3 → loginComplete (urlsLoginAt3 j) = false := by
  have h := wait_for_login_spec.1 urlsLoginAt3 10 3 true (by decide)
  exact ⟨h.2.1, h.2.2.1, h.2.2.2⟩

theorem filterMap_cleanCookie (cs : List RawCookie) :
    cs.filterMap cleanCookie = (cs.filter fullEntry).map cleanFull := by
  induction cs with
  | nil => rfl
  | cons c cs ih =>
    cases hn : c.name with
    | none =>
      simp [List.filterMap_cons, List.filter_cons, cleanCookie, fullEntry, hn, ih]
    | some n =>
      cases hv : c.value with
      | none =>
        simp [List.filterMap_cons, List.filter_cons, cleanCookie, fullEntry, hn, hv, ih]
      | some v =>
        simp [List.filterMap_cons, List.filter_cons, cleanCookie, fullEntry, cleanFull, hn, hv, ih]

/-- C2: saving a cookie list and loading it back yields, in input
order, exactly the entries that have both `name` and `value`, each in
normalized form; and whenever such an entry supplied `expiry` or
`expires`, the normalized `expiry` carries that integer. -/
theorem save_then_load_roundtrip (now : Int) (cs : List RawCookie)
    (h : ∃ c ∈ cs, fullEntry c = true) :
    load_cookies (some (.ok (save_cookies now cs))) =
      .ok ((cs.filter fullEntry).map cleanFull) ∧
    (∀ (c : RawCookie) (e : Int),
       c.expiry = some e ∨ (c.expiry = none ∧ c.expires = some e) →
       (cleanFull c).expiry = some e) := by
  constructor
  · obtain ⟨c, hc, _⟩ := h
    have hne : cs ≠ [] := List.ne_nil_of_mem hc
    have hemp : cs.isEmpty = false := by
      cases cs with
      | nil => exact absurd rfl hne
      | cons a l => rfl
    simp [load_cookies, save_cookies, extractCookies, hemp, filterMap_cleanCookie]
  · rintro c e (he | ⟨he, he2⟩)
    · simp [cleanFull, normExpiry, he]
    · simp [cleanFull, normExpiry, he, he2]

/-- Witness for C2 on a mixed list: the full entry (whose expiry came
from `expires`) survives in order, the `value`-less entry is dropped. -/
theorem save_then_load_roundtrip_witness :
    load_cookies (some (.ok (save_cookies 42 cookiesMixed))) =
      .ok ((cookiesMixed.filter fullEntry).map cleanFull) ∧
    load_cookies (some (.ok (save_cookies 42 cookiesMixed))) =
      .ok [{ name := "c_user", value := "1234", domain := ".facebook.com", path := "/",
             expiry := some 99, secure := none, httpOnly := none }] := by
  refine ⟨(save_then_load_roundtrip 42 cookiesMixed (by decide)).1, ?_⟩
  rw [(save_then_load_roundtrip 42 cookiesMixed (by decide)).1]
  decide

/-- C3: `load_cookies` fails with NotFound when no file exists, fails
with Empty when the file parses (wrapped dict form, with or without a
`cookies` key, or bare array form) but yields zero cookies, and on
success returns exactly the entries that have both `name` and `value`
(every entry lacking either field is dropped). -/
theorem load_cookies_failure_and_filter_spec :
    load_cookies none = .error .notFound ∧
    load_cookies (some (.ok (.arr []))) = .error .empty ∧
    (∀ (t : Option Int) (oc : Option (List RawCookie)), oc = none ∨ oc = some [] →
       load_cookies (some (.ok (.dict t oc))) = .error .empty) ∧
    (∀ (d : CookieFileData) (out : List CleanCookie),
       load_cookies (some (.ok d)) = .ok out →
       out = ((extractCookies d).filter fullEntry).map cleanFull) ∧
    (∀ c : RawCookie, c.name = none ∨ c.value = none → cleanCookie c = none) ∧
    (∀ (c : RawCookie) (n v : String), c.name = some n → c.value = some v →
       cleanCookie c = some (cleanFull c)) := by
  refine ⟨rfl, rfl, ?_, ?_, ?_, ?_⟩
  · rintro t oc (rfl | rfl) <;> rfl
  · intro d out hout
    rw [load_cookies] at hout
    by_cases hemp : (extractCookies d).isEmpty
    · rw [if_pos hemp] at hout
      cases hout
    · rw [if_neg hemp] at hout
      injection hout with h1
      rw [← h1, filterMap_cleanCookie]
  · rintro c (hn | hv)
    · simp [cleanCookie, hn]
    · cases hn : c.name <;> simp [cleanCookie, hn, hv]
  · intro c n v hn hv
    simp [cleanCookie, cleanFull, hn, hv]

/-- Witness for C3: a dict file without a `cookies` key is Empty, a
nameless entry is dropped, a full entry is kept in normalized form. -/
theorem load_cookies_failure_and_filter_spec_witness :
    load_cookies (some (.ok (.dict (some 5) none))) = .error .empty ∧
    cleanCookie { name := none, value := some "v" } = none ∧
    cleanCookie { name := some "n", value := some "v" } =
      some (cleanFull { name := some "n", value := some "v" }) ∧
    ((extractCookies (.arr cookiesMixed)).filter fullEntry).map cleanFull =
      [{ name := "c_user", value := "1234", domain := ".facebook.com", path := "/",
         expiry := some 99, secure := none, httpOnly := none }] := by
  refine ⟨load_cookies_failure_and_filter_spec.2.2.1 (some 5) none (Or.inl rfl),
          load_cookies_failure_and_filter_spec.2.2.2.2.1 _ (Or.inl rfl),
          load_cookies_failure_and_filter_spec.2.2.2.2.2 _ "n" "v" rfl rfl,
          (load_cookies_failure_and_filter_spec.2.2.2.1 (.arr cookiesMixed)
            [{ name := "c_user", value := "1234", domain := ".facebook.com", path := "/",
               expiry := some 99, secure := none, httpOnly := none }] (by decide)).symm⟩

/-- C6: `check_cookies_status` never raises on malformed content — it
returns the error-field record instead; on well-formed content it
reports existence, the total count, and the valid/expired counts,
where a cookie counts as valid exactly when its normalized expiry is
absent or strictly in the future; so a single cookie with a past
expiry reports one expired and zero valid, and a cookie with no expiry
field counts as valid. -/
theorem check_cookies_status_spec :
    (∀ (e : String) (now : Int),
       check_cookies_status (some (.error e)) now = .errorReport e) ∧
    (∀ now : Int, check_cookies_status none now = .notExists) ∧
    (∀ (d : CookieFileData) (now : Int),
       check_cookies_status (some (.ok d)) now =
         .report (extractCookies d).length
           ((extractCookies d).countP (fun c => cookieValid now c))
           ((extractCookies d).countP (fun c => !cookieValid now c))
           (fileTimestamp d)) ∧
    (∀ (now : Int) (c : RawCookie),
       cookieValid now c = true ↔
         (normExpiry c = none ∨ ∃ e, normExpiry c = some e ∧ now < e)) ∧
    (∀ (now e : Int) (t : Option Int) (c : RawCookie), e ≤ now → c.expiry = some e →
       check_cookies_status (some (.ok (.dict t (some [c])))) now =
         .report 1 0 1 (t.getD 0)) ∧
    (∀ (now : Int) (c : RawCookie), c.expiry = none → c.expires = none →
       cookieValid now c = true) := by
  refine ⟨fun e now => rfl, fun now => rfl, ?_, ?_, ?_, ?_⟩
  · intro d now
    simp [check_cookies_status, List.countP_eq_length_filter]
  · intro now c
    cases he : c.expiry with
    | some e => simp [cookieValid, normExpiry, he]
    | none =>
      cases he2 : c.expires with
      | some e2 => simp [cookieValid, normExpiry, he, he2]
      | none => simp [cookieValid, normExpiry, he, he2]
  · intro now e t c hle he
    have hv : cookieValid now c = false := by
      simp [cookieValid, he]
      omega
    simp [check_cookies_status, extractCookies, fileTimestamp, List.filter_cons, hv]
  · intro now c he he2
    simp [cookieValid, he, he2]

/-- Witness for C6: malformed content yields the error record; a
store with one past-expiry cookie reports total 1, valid 0, expired 1;
a cookie with no expiry field is valid. -/
theorem check_cookies_status_spec_witness :
    check_cookies_status (some (.error "bad json")) 100 = .errorReport "bad json" ∧
    check_cookies_status
      (some (.ok (.dict (some 7) (some [{ name := some "a", value := some "b", expiry := some 10 }])))) 100 =
      .report 1 0 1 7 ∧
    cookieValid 100 { name := some "a", value := some "b" } = true := by
  refine ⟨check_cookies_status_spec.1 "bad json" 100, ?_,
          check_cookies_status_spec.2.2.2.2.2 100 { name := some "a", value := some "b" } rfl rfl⟩
  exact check_cookies_status_spec.2.2.2.2.1 100 10 (some 7)
    { name := some "a", value := some "b", expiry := some 10 } (by omega) rfl

/-- C4 (amended): any exception raised at any step of either flow
body is caught at the flow boundary and converted into a fully-filled
result — success false, a message carrying the exception text, and
an echo of the input parameters — and the flow never raises past its
boundary (it is a total function into results); the timestamped
diagnostic screenshot is written exactly when the browser had been
launched, and the screenshot attempt silently produces nothing when
browser startup itself was the failing step. -/
theorem upload_flows_catch_all_spec (env : FlowEnv) (t m v d e f : String) :
    (uploadStatusBody env t m = .error e →
       upload_status env t m =
         ({ success := false, message := "Facebook status upload failed: " ++ e,
            status_text := t, media_path := m },
          { launched := exIsOk env.launch, quitCalled := exIsOk env.launch,
            screenshotSaved := exIsOk env.launch,
            screenshotName :=
              if exIsOk env.launch then
                some ("facebook_status_error_" ++ toString env.now ++ ".png")
              else none })) ∧
    (uploadReelsBody env d = .error f →
       upload_reels env v d =
         ({ success := false, message := "Facebook Reels upload failed: " ++ f,
            video_path := v, description := d },
          { launched := exIsOk env.launch, quitCalled := exIsOk env.launch,
            screenshotSaved := exIsOk env.launch,
            screenshotName :=
              if exIsOk env.launch then
                some ("facebook_reels_error_" ++ toString env.now ++ ".png")
              else none })) := by
  constructor
  · intro h
    cases hL : exIsOk env.launch <;>
      simp [upload_status, h, take_screenshot, hL]
  · intro h
    cases hL : exIsOk env.launch <;>
      simp [upload_reels, h, take_screenshot, hL]

/-- Witness for C4 (amended): with the browser up but no selector ever
resolving, both flows return a complete failure result carrying the
raised element-not-found message, and the timestamped screenshot is
written. -/
theorem upload_flows_catch_all_spec_witness :
    upload_status envNoElement "hi" "" =
      ({ success := false, message := "Facebook status upload failed: Status input not found",
         status_text := "hi", media_path := "" },
       { launched := true, quitCalled := true, screenshotSaved := true,
         screenshotName := some "facebook_status_error_0.png" }) ∧
    upload_reels envNoElement "/v.mp4" "desc" =
      ({ success := false, message := "Facebook Reels upload failed: Video upload element not found",
         video_path := "/v.mp4", description := "desc" },
       { launched := true, quitCalled := true, screenshotSaved := true,
         screenshotName := some "facebook_reels_error_0.png" }) := by
  have h := upload_flows_catch_all_spec envNoElement "hi" "" "/v.mp4" "desc"
    "Status input not found" "Video upload element not found"
  exact ⟨h.1 (by decide), h.2 (by decide)⟩

/-- Counterexample to C4 as stated: when the failing step is browser
startup itself, the exception is caught and a complete failure result
is returned, but no diagnostic screenshot is captured — `self.driver`
is still None, so the broad except inside take_screenshot swallows the
attempt and no file with a timestamped name is produced. -/
theorem upload_status_launch_failure_no_screenshot :
    uploadStatusBody envLaunchFailA "hi" "" = .error "browser failed to start" ∧
    (upload_status envLaunchFailA "hi" "").1.success = false ∧
    (upload_status envLaunchFailA "hi" "").2.screenshotSaved = false ∧
    (upload_status envLaunchFailA "hi" "").2.screenshotName = none := by
  decide

/-- C5 (amended): a browser-start failure does NOT escape the flow —
like every other exception it is caught at the boundary and converted
into a failed Upload Result whose message carries the setup error; on
that path the browser was never launched, so neither quit nor a
screenshot occurs. -/
theorem setup_failure_handled_spec (env : FlowEnv) (t m v d msg : String)
    (h : env.launch = .error msg) :
    upload_status env t m =
      ({ success := false, message := "Facebook status upload failed: " ++ msg,
         status_text := t, media_path := m },
       { launched := false, quitCalled := false, screenshotSaved := false,
         screenshotName := none }) ∧
    upload_reels env v d =
      ({ success := false, message := "Facebook Reels upload failed: " ++ msg,
         video_path := v, description := d },
       { launched := false, quitCalled := false, screenshotSaved := false,
         screenshotName := none }) := by
  have hs : uploadStatusBody env t m = .error msg := by
    simp [uploadStatusBody, h, Bind.bind, Except.bind]
  have hr : uploadReelsBody env d = .error msg := by
    simp [uploadReelsBody, h, Bind.bind, Except.bind]
  have hL : exIsOk env.launch = false := by simp [exIsOk, h]
  constructor
  · simp [upload_status, hs, take_screenshot, hL]
  · simp [upload_reels, hr, take_screenshot, hL]

/-- Witness for C5 (amended), at a concrete environment whose browser
start fails. -/
theorem setup_failure_handled_spec_witness :
    upload_status envLaunchFailB "hello" "/tmp/pic.png" =
      ({ success := false, message := "Facebook status upload failed: chrome crashed",
         status_text := "hello", media_path := "/tmp/pic.png" },
       { launched := false, quitCalled := false, screenshotSaved := false,
         screenshotName := none }) ∧
    upload_reels envLaunchFailB "/v.mp4" "d" =
      ({ success := false, message := "Facebook Reels upload failed: chrome crashed",
         video_path := "/v.mp4", description := "d" },
       { launched := false, quitCalled := false, screenshotSaved := false,
         screenshotName := none }) :=
  setup_failure_handled_spec envLaunchFailB "hello" "/tmp/pic.png" "/v.mp4" "d"
    "chrome crashed" rfl

/-- Counterexample to C5 as stated: the setup failure is converted into
a failed Upload Result at the flow boundary — it is not allowed to
escape the flow uncaught. -/
theorem upload_status_setup_failure_converted :
    upload_status envLaunchFailB "status text" "" =
      ({ success := false, message := "Facebook status upload failed: chrome crashed",
         status_text := "status text", media_path := "" },
       { launched := false, quitCalled := false, screenshotSaved := false,
         screenshotName := none }) := by
  decide

/-- C8: on every exit path of either flow — normal return, handled
failure, or converted exception — the `finally` block quits the driver
exactly when a browser instance was launched, so a launched browser is
always released before the flow returns and never leaked. -/
theorem flows_always_release_browser (env : FlowEnv) (t m v d : String) :
    (upload_status env t m).2.quitCalled = (upload_status env t m).2.launched ∧
    (upload_reels env v d).2.quitCalled = (upload_reels env v d).2.launched ∧
    (upload_status env t m).2.launched = exIsOk env.launch ∧
    (upload_reels env v d).2.launched = exIsOk env.launch := by
  cases hs : uploadStatusBody env t m <;> cases hr : uploadReelsBody env d <;>
    simp [upload_status, upload_reels, hs, hr]

/-- C9: a status-flow request whose status text is empty (or absent)
and whose media path does not exist is rejected by the boundary
validation of main before upload_status — and hence any browser
setup — is ever invoked. -/
theorem main_status_rejects_before_launch (statusArg mediaArg : Option String)
    (pathEx : String → Bool) (env : FlowEnv)
    (hs : pyTruthy statusArg = false)
    (hm : ∀ s, mediaArg = some s → pathEx s = false) :
    mainStatusRun statusArg mediaArg pathEx env = none := by
  cases mediaArg with
  | none =>
    have h0 : pyTruthy (none : Option String) = false := rfl
    simp [mainStatusRun, mainStatusValidate, hs, h0]
  | some s =>
    cases ht : pyTruthy (some s) with
    | false => simp [mainStatusRun, mainStatusValidate, hs, ht]
    | true => simp [mainStatusRun, mainStatusValidate, hs, ht, hm s rfl]

/-- Witness for C9: empty status text, nonexistent media path — no
flow run, hence no browser launch, for the all-ok environment. -/
theorem main_status_rejects_before_launch_witness :
    mainStatusRun (some "") (some "/no/such/file.png") (fun _ => false) envBase = none :=
  main_status_rejects_before_launch (some "") (some "/no/such/file.png")
    (fun _ => false) envBase (by decide) (fun _ _ => rfl)
